import Mathlib

/-!
Shallow embedding of the `multilayer_simulator` package (structure/material data
model, spectral mixin, simulation orchestrator, formatter dispatch), together
with theorems settling the specification claims.

Conventions of the embedding:
* Python floats are modelled as rationals `ℚ` (the claims are about exact
  structural values, not floating-point rounding).
* numpy 1-d arrays are modelled as `List ℚ`; `np.atleast_1d` of a scalar is the
  one-element list.
* Exceptions are modelled with `Except PyError`.
* Python object identity for `Layer` objects is modelled with an explicit heap:
  a store `List LayerVal` of layer values addressed by `Nat` references, so that
  aliasing (`copy_layers=False`) versus deep copying (`copy_layers=True`) is
  observable.
-/

namespace MultilayerSimulator

/-- Python exceptions that the modelled code can raise.  `validationError` is
the `ValueError` raised by the attrs `ge(0)` validator (the spec calls it a
`ValidationError`); `other` stands for an arbitrary backend exception. -/
inductive PyError where
  | validationError
  | attributeError (msg : String)
  | notImplementedError
  | typeError
  | other (msg : String)
deriving DecidableEq, Repr

/-- Python runtime values as far as the `keep_data is True` identity test in
`Simulation.simulate` can distinguish them: only the boolean `True` object is
`is True`; in particular the integer `1` is not, although `1 == True`. -/
inductive PyVal where
  | pybool (b : Bool)
  | pyint (n : Int)
  | pynone
deriving DecidableEq, Repr

/-- An index callable bound to a `Layer`:
maps (frequencies, component) to a per-frequency refractive index array
(`material.py` returns complex indices in general; the claims only exercise
real constant indices, so values live in `ℚ`). -/
abbrev IndexFunction := List ℚ → Nat → List ℚ

/-- `ConstantIndex` material from `material.py`.  The `name` field comes from
`NamedMixin`; that mixin is code of this repository missing from `src/`
(only its import and callers are present). Modelled from the spec: materials
carry an optional name used to default a layer's name. -/
structure ConstantIndex where
  _index : ℚ
  name : Option String := none
deriving DecidableEq, Repr

/-- `ConstantIndex.index`: `np.full(shape=frequencies.shape, fill_value=self._index)`,
i.e. a constant array of the same shape as the frequency array.  The
`component` argument is ignored, as in the source. -/
def ConstantIndex.index (m : ConstantIndex) (frequencies : List ℚ)
    (_component : Nat) : List ℚ :=
  frequencies.map (fun _ => m._index)

/-- The value state of a `Layer` object (`structure.py`): an index callable,
the thickness stored as an at-least-1d array, an optional back-reference to
the originating material and the `NamedMixin` name. -/
structure LayerVal where
  _index : IndexFunction
  thickness : List ℚ
  material : Option ConstantIndex := none
  name : Option String := none

/-- The default `Layer()`: index callable `ConstantIndex(1).index`, thickness
defaulting to `0` (stored as `[0]` by the `np.atleast_1d` converter). -/
def Layer.vacuum : LayerVal :=
  { _index := ConstantIndex.index ⟨1, none⟩, thickness := [0] }

instance : Inhabited LayerVal := ⟨Layer.vacuum⟩

/-- Constructing `Layer(_index, thickness, material, name)` with a scalar
thickness: the converter `np.atleast_1d` stores `[t]` and the attrs
validator `ge(0)` rejects negative values with a validation error. -/
def Layer.mk? (idx : IndexFunction) (t : ℚ) (material : Option ConstantIndex)
    (name : Option String) : Except PyError LayerVal :=
  if 0 ≤ t then .ok { _index := idx, thickness := [t], material := material, name := name }
  else .error .validationError

/-- Assigning `layer.thickness = t` for a scalar `t`: `on_setattr` pipes the
`np.atleast_1d` converter and then the `ge(0)` validator. -/
def Layer.set_thickness (l : LayerVal) (t : ℚ) : Except PyError LayerVal :=
  if 0 ≤ t then .ok { l with thickness := [t] }
  else .error .validationError

/-- `Layer.index` delegates to the bound index callable. -/
def Layer.index (l : LayerVal) (frequencies : List ℚ) (component : Nat) : List ℚ :=
  l._index frequencies component

/-- `Layer.from_material(material, thickness, name)`: binds `material.index`,
defaults the name from `material.name` when no name is given (string case of
the source; the callable-name case is not exercised by any claim). -/
def Layer.from_material (material : ConstantIndex := ⟨1, none⟩) (thickness : ℚ := 0)
    (name : Option String := none) : Except PyError LayerVal :=
  Layer.mk? material.index thickness (some material)
    (match name with
     | none => material.name
     | some n => some n)

/-! ### The layer heap

Python `Layer` objects have identity; `copy.deepcopy` creates a fresh object
with an equal value.  We model the live `Layer` objects as a store (a list of
`LayerVal` addressed by position) and a layer object as a reference into it. -/

/-- A reference to a `Layer` object (its address in the store). -/
abbrev LayerRef := Nat

/-- The heap of live `Layer` objects. -/
abbrev Store := List LayerVal

/-- Dereference a layer object. -/
def getLayer (store : Store) (r : LayerRef) : LayerVal :=
  store.getD r default

/-- Assigning `layer.thickness = t` through a reference: the attrs setter
(convert then validate) runs on the referenced object; on success the store
holds the updated object at the same address. -/
def Store.set_thickness (store : Store) (r : LayerRef) (t : ℚ) :
    Except PyError Store :=
  match Layer.set_thickness (getLayer store r) t with
  | .ok l => .ok (store.set r l)
  | .error e => .error e

/-- Sequentially `copy.deepcopy` each referenced layer and append the copy to
the store (a fresh address per copy), returning the new store and the
references to the copies, in order.  This is the allocation behaviour of the
`layers.append(copy.deepcopy(layer))` loop in `Multilayer.from_given_unit_cell`. -/
def copyAll (store : Store) (rs : List LayerRef) : Store × List LayerRef :=
  match rs with
  | [] => (store, [])
  | r :: rest =>
      let next := copyAll (store ++ [getLayer store r]) rest
      (next.1, store.length :: next.2)

/-- The value state of a `Multilayer` (`structure.py`): an ordered list of
layer object references and the optionally recorded unit cell (the literal
references that were passed in, `eq=False` in the source). -/
structure Multilayer where
  layers : List LayerRef
  unit_cell : Option (List LayerRef) := none
deriving DecidableEq, Repr

/-- `Multilayer.index`: `np.array([layer.index(frequencies, component) for layer in self.layers])`,
one row per layer. -/
def Multilayer.index (store : Store) (m : Multilayer) (frequencies : List ℚ)
    (component : Nat) : List (List ℚ) :=
  m.layers.map (fun r => Layer.index (getLayer store r) frequencies component)

/-- A numpy ndarray of rationals: a shape together with the row-major data. -/
structure NDArray where
  shape : List Nat
  data : List ℚ
deriving DecidableEq, Repr

/-- `np.array` of a list of rows, for the rectangular case (every layer's
thickness is an `np.atleast_1d` array; in the stacks the claims build, each
row has length 1).  `np.array([])` has shape `(0,)`. -/
def np_array_of_rows (rows : List (List ℚ)) : NDArray :=
  match rows with
  | [] => ⟨[0], []⟩
  | r :: _ => ⟨[rows.length, r.length], rows.flatten⟩

/-- `numpy.squeeze`: remove every axis of length 1 (the data is unchanged). -/
def NDArray.squeeze (a : NDArray) : NDArray :=
  ⟨a.shape.filter (fun d => d != 1), a.data⟩

/-- `Multilayer.thickness`:
`np.array([layer.thickness for layer in self.layers]).squeeze()`. -/
def Multilayer.thickness (store : Store) (m : Multilayer) : NDArray :=
  (np_array_of_rows (m.layers.map (fun r => (getLayer store r).thickness))).squeeze

/-- `Multilayer.stack_layers`: `self.layers[1:-1]`. -/
def Multilayer.stack_layers (m : Multilayer) : List LayerRef :=
  (m.layers.drop 1).dropLast

/-- The sequence of layer references appended by the loops of
`Multilayer.from_given_unit_cell`:
`incident :: (unit_cell repeated num_periods times) ++ [exit]`. -/
def buildSeq (unit_cell : List LayerRef) (incident_layer exit_layer : LayerRef)
    (num_periods : Nat) : List LayerRef :=
  incident_layer :: ((List.replicate num_periods unit_cell).flatten ++ [exit_layer])

/-- `Multilayer.from_given_unit_cell`: build
`[incident_layer] + unit_cell * num_periods + [exit_layer]`, deep-copying every
appended layer when `copy_layers` is true and aliasing the given objects
otherwise; the returned `Multilayer` records the literal `unit_cell`
references. -/
def Multilayer.from_given_unit_cell (store : Store) (unit_cell : List LayerRef)
    (incident_layer exit_layer : LayerRef) (num_periods : Nat)
    (copy_layers : Bool) : Store × Multilayer :=
  let seq := buildSeq unit_cell incident_layer exit_layer num_periods
  if copy_layers then
    ((copyAll store seq).1, ⟨(copyAll store seq).2, some unit_cell⟩)
  else
    (store, ⟨seq, some unit_cell⟩)

/-- `Multilayer.from_own_unit_cell`: when no unit cell is supplied, fall back
to the recorded `unit_cell` if it is not `None`, else to `stack_layers`; then
delegate to `from_given_unit_cell`. -/
def Multilayer.from_own_unit_cell (store : Store) (self : Multilayer)
    (unit_cell : Option (List LayerRef)) (incident_layer exit_layer : LayerRef)
    (num_periods : Nat) (copy_layers : Bool) : Store × Multilayer :=
  let uc := match unit_cell with
    | some u => u
    | none =>
        match self.unit_cell with
        | none => self.stack_layers
        | some u => u
  Multilayer.from_given_unit_cell store uc incident_layer exit_layer
    num_periods copy_layers

/-! ### Spectral duality mixin (`helpers/mixins.py`, `SpectrumMixinV0_2`) -/

/-- Module-level speed of light `c = 2.99792458e8` (exact as a rational). -/
def c : ℚ := 299792458

/-- `convert_wavelength_and_frequency(value, c) = c / value`, elementwise on
a 1-d array. -/
def convert_wavelength_and_frequency (value : List ℚ) (cc : ℚ) : List ℚ :=
  value.map (fun v => cc / v)

/-- State of a `SpectrumMixinV0_2` owner: the per-instance constant `c`, the
canonical `frequencies` field (optional, `np.atleast_1d`-converted), and the
`functools.cached_property` slot for `wavelengths` (`none` when the cache is
unset, `some v` when a computed value `v` is cached). -/
structure SpectrumMixinV0_2 where
  c : ℚ := c
  frequencies : Option (List ℚ) := none
  wavelengthsCache : Option (Option (List ℚ)) := none

/-- Reading the `wavelengths` cached property: return the cached value if
present, otherwise compute `convert_wavelength_and_frequency(self.frequencies, self.c)`
(`None` frequencies raise `TypeError`, caught and turned into `None`) and
cache it.  Returns the value read and the owner afterwards. -/
def SpectrumMixinV0_2.readWavelengths (s : SpectrumMixinV0_2) :
    Option (List ℚ) × SpectrumMixinV0_2 :=
  match s.wavelengthsCache with
  | some v => (v, s)
  | none =>
      let v := match s.frequencies with
        | some f => some (convert_wavelength_and_frequency f s.c)
        | none => none
      (v, { s with wavelengthsCache := some v })

/-- Assigning `self.frequencies = f`: the `on_setattr` chain converts the
value (`np.atleast_1d`, optional) and then runs `unset_wavelengths`, which
deletes the cached `wavelengths` (ignoring the error if it was unset). -/
def SpectrumMixinV0_2.setFrequencies (s : SpectrumMixinV0_2)
    (f : Option (List ℚ)) : SpectrumMixinV0_2 :=
  { s with frequencies := f, wavelengthsCache := none }

/-! ### Simulation orchestrator (`simulation.py`) -/

/-- The `Engine` capability: `engine.simulate(structure, frequencies, angles)`.
The structure and frequencies are whatever the orchestrator resolved (possibly
`None`); the engine may raise. -/
abbrev Engine (σ δ : Type) := Option σ → Option (List ℚ) → List ℚ → Except PyError δ

/-- Module-level `simulate(structure, engine, frequencies, angles)`:
`engine.simulate(structure, frequencies, angles)`. -/
def simulate {σ δ : Type} (structure? : Option σ) (engine : Engine σ δ)
    (frequencies : Option (List ℚ)) (angles : List ℚ) : Except PyError δ :=
  engine structure? frequencies angles

/-- State of a `Simulation` (an attrs class extending `SpectrumMixinV0_2`):
a structure, an engine, angles (defaulting to `[0]`), an optional formatter
and the cached `data` (which is `None` until the first successful kept run).
The source field named `structure` is called `struct` here because
`structure` is a Lean keyword. -/
structure Simulation (σ δ : Type) extends SpectrumMixinV0_2 where
  struct : Option σ := none
  engine : Option (Engine σ δ) := none
  angles : List ℚ := [0]
  formatter : Option (δ → Except PyError δ) := none
  data : Option δ := none

/-- Argument resolution in `Simulation.simulate`:
`x = self.x if x is None else x`. -/
def resolveArg {α : Type} (field : Option α) (arg : Option α) : Option α :=
  match arg with
  | none => field
  | some x => some x

/-- The `if formatter is not None: data = formatter.format(data)` step of
`Simulation.simulate`. -/
def applyFormatter {δ : Type} (fmt : Option (δ → Except PyError δ)) (raw : δ) :
    Except PyError δ :=
  match fmt with
  | none => .ok raw
  | some f => f raw

/-- `Simulation.simulate`: resolve each argument against the instance field
when the argument is `None`, run the engine, optionally format, and cache the
result on `self.data` only when `keep_data is True` (a Python identity test).
The returned pair is the call's outcome (result or propagated exception) and
the instance as the call leaves it. -/
def Simulation.simulate {σ δ : Type} (self : Simulation σ δ)
    (structure? : Option σ) (engine? : Option (Engine σ δ))
    (frequencies? : Option (List ℚ)) (angles? : Option (List ℚ))
    (formatter? : Option (δ → Except PyError δ)) (keep_data : PyVal) :
    Except PyError δ × Simulation σ δ :=
  match resolveArg self.engine engine? with
  | none => (.error (.attributeError "NoneType object has no attribute simulate"), self)
  | some engFn =>
      match MultilayerSimulator.simulate (resolveArg self.struct structure?) engFn
          (resolveArg self.frequencies frequencies?) (angles?.getD self.angles) with
      | .error e => (.error e, self)
      | .ok raw =>
          match applyFormatter (resolveArg self.formatter formatter?) raw with
          | .error e => (.error e, self)
          | .ok d =>
              if keep_data = PyVal.pybool true then (.ok d, { self with data := some d })
              else (.ok d, self)

/-! ### Formatter dispatch (`helpers/formatters.py`, `lumerical_classes.py`) -/

/-- The base `DataFormatter.format` raises `NotImplementedError` whatever the
selected output format. -/
def DataFormatter.format {ρ τ : Type} (_output_format : Option String)
    (_data : ρ) : Except PyError τ :=
  .error .notImplementedError

/-- Result of `LumericalFormatter.format`: the raw dataset passed through, an
xarray dataset, or an xarray data-array. -/
inductive FormatResult (ρ τ α : Type) where
  | raw (d : ρ)
  | dataset (x : τ)
  | dataarray (x : α)
deriving DecidableEq, Repr

/-- `LumericalFormatter.to_xarray_dataset` as defined on the base
`LumericalFormatter` class: `raise NotImplementedError`. -/
def LumericalFormatter.to_xarray_dataset_base {ρ τ : Type} (_data : ρ) :
    Except PyError τ :=
  .error .notImplementedError

/-- `LumericalFormatter.format`: bind the dataset (`attrs.evolve`) and
dispatch on `output_format`: `None` returns the bound dataset unchanged,
`"xarray_dataset"` calls the (dynamically dispatched, subclass-overridable)
`to_xarray_dataset` method — passed here as `toDataset` —,
`"xarray_dataarray"` calls `to_xarray_dataarray`, which is
`to_xarray_dataset` followed by `Dataset.to_array` (`toArray`), and any other
value raises `AttributeError("output_format not recognised")`. -/
def LumericalFormatter.format {ρ τ α : Type} (output_format : Option String)
    (toDataset : ρ → Except PyError τ) (toArray : τ → α) (data : ρ) :
    Except PyError (FormatResult ρ τ α) :=
  match output_format with
  | none => .ok (.raw data)
  | some "xarray_dataset" => (toDataset data).map .dataset
  | some "xarray_dataarray" => (toDataset data).map (fun x => .dataarray (toArray x))
  | some _ => .error (.attributeError "output_format not recognised")

/-! ### Concrete fixtures used by witnesses

`layer_1`/`layer_2` are the layers of the spec's concrete scenario (constant
indices 1 and 2, thicknesses 1 and 2, as built by
`Layer.from_material(ConstantIndex(i), thickness)` in the test fixtures). -/

def layer_1 : LayerVal :=
  { _index := ConstantIndex.index ⟨1, none⟩, thickness := [1],
    material := some ⟨1, none⟩ }

def layer_2 : LayerVal :=
  { _index := ConstantIndex.index ⟨2, none⟩, thickness := [2],
    material := some ⟨2, none⟩ }

/-- A single layer of thickness 5 (the failing input of the `squeeze` slip in
`Multilayer.thickness`). -/
def single_layer : LayerVal :=
  { _index := ConstantIndex.index ⟨1, none⟩, thickness := [5] }

/-- A concrete engine for exercising `Simulation.simulate`: echoes the
resolved frequency array, raising a backend error on `[0]` and a `TypeError`
when the resolved frequencies are `None`. -/
def witnessEngine : Engine Unit (List ℚ) :=
  fun _ freqs _ =>
    match freqs with
    | some f => if f = [0] then .error (.other "boom") else .ok f
    | none => .error .typeError

/-! ### Helper lemmas about the layer heap -/

theorem getLayer_append_left (store ext : Store) (r : LayerRef)
    (h : r < store.length) : getLayer (store ++ ext) r = getLayer store r :=
  List.getD_append store ext default r h

theorem getLayer_append_right (store ext : Store) (i : Nat) :
    getLayer (store ++ ext) (store.length + i) = getLayer ext i := by
  have h := List.getD_append_right store ext default (store.length + i)
    (Nat.le_add_right _ _)
  simpa [getLayer] using h

theorem getLayer_set_ne (store : Store) (a b : LayerRef) (v : LayerVal)
    (h : a ≠ b) : getLayer (store.set a v) b = getLayer store b := by
  simp [getLayer, List.getD, List.getElem?_set_ne h]

theorem copyAll_refs (store : Store) (rs : List LayerRef) :
    (copyAll store rs).2 = List.range' store.length rs.length := by
  induction rs generalizing store with
  | nil => simp [copyAll]
  | cons r rest ih =>
      simp only [copyAll, ih, List.length_append, List.length_cons, List.length_nil]
      rw [List.range'_succ store.length rest.length 1]

theorem copyAll_store (store : Store) (rs : List LayerRef)
    (h : ∀ r ∈ rs, r < store.length) :
    (copyAll store rs).1 = store ++ rs.map (getLayer store) := by
  induction rs generalizing store with
  | nil => simp [copyAll]
  | cons r rest ih =>
      have hrest : ∀ x ∈ rest, x < (store ++ [getLayer store r]).length := by
        intro x hx
        have h1 := h x (List.mem_cons_of_mem r hx)
        have h2 : (store ++ [getLayer store r]).length = store.length + 1 := by simp
        rw [h2]
        exact Nat.lt_succ_of_lt h1
      have hmap : rest.map (getLayer (store ++ [getLayer store r]))
          = rest.map (getLayer store) := by
        refine List.map_congr_left ?_
        intro x hx
        exact getLayer_append_left store _ x (h x (List.mem_cons_of_mem r hx))
      simp only [copyAll, ih _ hrest, hmap, List.map_cons]
      simp

theorem map_getLayer_range' (store ext : Store) :
    (List.range' store.length ext.length).map (getLayer (store ++ ext)) = ext := by
  induction ext generalizing store with
  | nil => simp
  | cons e rest ih =>
      rw [show (e :: rest).length = rest.length + 1 from rfl,
        List.range'_succ store.length rest.length 1, List.map_cons]
      have h0 : getLayer (store ++ e :: rest) store.length = e := by
        have := getLayer_append_right store (e :: rest) 0
        simpa [getLayer] using this
      have htail : (List.range' (store.length + 1) rest.length).map
          (getLayer (store ++ e :: rest)) = rest := by
        have hlen : (store ++ [e]).length = store.length + 1 := by simp
        have := ih (store ++ [e])
        rw [hlen] at this
        simpa [List.append_assoc] using this
      rw [h0, htail]

theorem buildSeq_length (U : List LayerRef) (inc ex : LayerRef) (N : Nat) :
    (buildSeq U inc ex N).length = N * U.length + 2 := by
  simp [buildSeq, List.length_flatten, List.map_replicate, List.sum_replicate,
    smul_eq_mul]

theorem buildSeq_valid (store : Store) (U : List LayerRef) (inc ex : LayerRef)
    (N : Nat) (hU : ∀ r ∈ U, r < store.length) (hinc : inc < store.length)
    (hex : ex < store.length) :
    ∀ r ∈ buildSeq U inc ex N, r < store.length := by
  intro r hr
  simp only [buildSeq, List.mem_cons, List.mem_append, List.mem_flatten,
    List.mem_replicate, List.mem_singleton] at hr
  rcases hr with h | ⟨l, ⟨-, rfl⟩, hmem⟩ | h | h
  · exact h ▸ hinc
  · exact hU r hmem
  · exact h ▸ hex
  · simp at h

theorem getLayer_set_self (store : Store) (a : LayerRef) (v : LayerVal)
    (h : a < store.length) : getLayer (store.set a v) a = v := by
  simp [getLayer, List.getD, List.getElem?_set_self', List.getElem?_eq_getElem h]

theorem set_thickness_ok (store : Store) (r : LayerRef) (t : ℚ) (ht : 0 ≤ t) :
    Store.set_thickness store r t
      = .ok (store.set r { getLayer store r with thickness := [t] }) := by
  simp [Store.set_thickness, Layer.set_thickness, ht]

theorem getD_range' (L n i : Nat) (h : i < n) :
    (List.range' L n).getD i 0 = L + i := by
  rw [List.getD_eq_getElem _ _ (by simpa using h)]
  exact List.getElem_range'_1 i (by simpa using h)

theorem getD_map_lt {α β : Type} (f : α → β) (l : List α) (i : Nat) (d : α)
    (db : β) (h : i < l.length) : (l.map f).getD i db = f (l.getD i d) := by
  rw [List.getD_eq_getElem _ _ (by simpa using h), List.getD_eq_getElem _ _ h,
    List.getElem_map]

theorem buildSeq_getD_zero (U : List LayerRef) (inc ex : LayerRef) (N : Nat) :
    (buildSeq U inc ex N).getD 0 0 = inc := rfl

theorem buildSeq_getD_last (U : List LayerRef) (inc ex : LayerRef) (N : Nat) :
    (buildSeq U inc ex N).getD ((buildSeq U inc ex N).length - 1) 0 = ex := by
  have h1 : (buildSeq U inc ex N).length - 1
      = (List.replicate N U).flatten.length + 1 := by
    simp [buildSeq]
  rw [h1]
  show (inc :: ((List.replicate N U).flatten ++ [ex])).getD
    ((List.replicate N U).flatten.length + 1) 0 = ex
  rw [List.getD_cons_succ, List.getD_append_right _ _ _ _ (Nat.le_refl _)]
  simp

theorem from_given_copy_refs (store : Store) (U : List LayerRef)
    (inc ex : LayerRef) (N : Nat) :
    (Multilayer.from_given_unit_cell store U inc ex N true).2.layers
      = List.range' store.length (buildSeq U inc ex N).length := by
  simp [Multilayer.from_given_unit_cell, copyAll_refs]

theorem from_given_copy_store (store : Store) (U : List LayerRef)
    (inc ex : LayerRef) (N : Nat)
    (h : ∀ r ∈ buildSeq U inc ex N, r < store.length) :
    (Multilayer.from_given_unit_cell store U inc ex N true).1
      = store ++ (buildSeq U inc ex N).map (getLayer store) := by
  simp [Multilayer.from_given_unit_cell, copyAll_store _ _ h]

theorem from_given_copy_values (store : Store) (U : List LayerRef)
    (inc ex : LayerRef) (N : Nat)
    (h : ∀ r ∈ buildSeq U inc ex N, r < store.length) :
    (Multilayer.from_given_unit_cell store U inc ex N true).2.layers.map
        (getLayer (Multilayer.from_given_unit_cell store U inc ex N true).1)
      = (buildSeq U inc ex N).map (getLayer store) := by
  rw [from_given_copy_refs, from_given_copy_store store U inc ex N h]
  have hm := map_getLayer_range' store ((buildSeq U inc ex N).map (getLayer store))
  rw [List.length_map] at hm
  exact hm

/-! ### Helper lemmas about the orchestrator -/

theorem simulate_cases {σ δ : Type} (s : Simulation σ δ)
    (structure? : Option σ) (engine? : Option (Engine σ δ))
    (frequencies? angles? : Option (List ℚ))
    (formatter? : Option (δ → Except PyError δ)) (keep_data : PyVal) :
    (∃ e, s.simulate structure? engine? frequencies? angles? formatter? keep_data
        = (.error e, s)) ∨
    (∃ d, s.simulate structure? engine? frequencies? angles? formatter? keep_data
        = (.ok d, if keep_data = PyVal.pybool true then { s with data := some d } else s)) := by
  unfold Simulation.simulate
  cases hE : resolveArg s.engine engine? with
  | none => exact .inl ⟨_, rfl⟩
  | some engFn =>
      cases hR : MultilayerSimulator.simulate (resolveArg s.struct structure?) engFn
          (resolveArg s.frequencies frequencies?) (angles?.getD s.angles) with
      | error e => exact .inl ⟨e, by simp [hR]⟩
      | ok raw =>
          cases hF : applyFormatter (resolveArg s.formatter formatter?) raw with
          | error e => exact .inl ⟨e, by simp [hR, hF]⟩
          | ok d =>
              by_cases hk : keep_data = PyVal.pybool true <;>
                exact .inr ⟨d, by simp [hR, hF, hk]⟩

theorem simulate_fst_indep {σ δ : Type} (s : Simulation σ δ)
    (structure? : Option σ) (engine? : Option (Engine σ δ))
    (frequencies? angles? : Option (List ℚ))
    (formatter? : Option (δ → Except PyError δ)) (kd kd' : PyVal) :
    (s.simulate structure? engine? frequencies? angles? formatter? kd).1
      = (s.simulate structure? engine? frequencies? angles? formatter? kd').1 := by
  unfold Simulation.simulate
  cases hE : resolveArg s.engine engine? with
  | none => rfl
  | some engFn =>
      cases hR : MultilayerSimulator.simulate (resolveArg s.struct structure?) engFn
          (resolveArg s.frequencies frequencies?) (angles?.getD s.angles) with
      | error e => simp [hR]
      | ok raw =>
          cases hF : applyFormatter (resolveArg s.formatter formatter?) raw with
          | error e => simp [hR, hF]
          | ok d =>
              by_cases hk : kd = PyVal.pybool true <;>
                by_cases hk' : kd' = PyVal.pybool true <;>
                  simp [hR, hF, hk, hk']

/-! ### The claims -/

/-- C1: every successful `Simulation.simulate()` call with retention overwrites
the cached `data` with that call's result, so two successive calls with
different frequency arrays leave `data` equal to only the second call's
result; and when the engine or the formatter raises, the exception propagates
unchanged to the caller and the instance (in particular `self.data`) retains
its prior value. -/
theorem C1_simulate_cache_overwrite_and_error_propagation {σ δ : Type}
    (s : Simulation σ δ) :
    (∀ (f1 f2 : List ℚ) (d1 d2 : δ) (s1 s2 : Simulation σ δ),
      f1 ≠ f2 →
      s.simulate none none (some f1) none none (.pybool true) = (.ok d1, s1) →
      s1.simulate none none (some f2) none none (.pybool true) = (.ok d2, s2) →
      s2.data = some d2) ∧
    (∀ (structure? : Option σ) (engine? : Option (Engine σ δ))
        (frequencies? angles? : Option (List ℚ))
        (formatter? : Option (δ → Except PyError δ)) (keep_data : PyVal)
        (e : PyError) (s' : Simulation σ δ),
      s.simulate structure? engine? frequencies? angles? formatter? keep_data
        = (.error e, s') →
      s' = s ∧ s'.data = s.data) ∧
    (∀ (engFn : Engine σ δ) (e : PyError),
      s.engine = some engFn →
      engFn s.struct s.frequencies s.angles = .error e →
      s.simulate none none none none none (.pybool true) = (.error e, s)) ∧
    (∀ (engFn : Engine σ δ) (fmt : δ → Except PyError δ) (raw : δ) (e : PyError),
      s.engine = some engFn → s.formatter = some fmt →
      engFn s.struct s.frequencies s.angles = .ok raw →
      fmt raw = .error e →
      s.simulate none none none none none (.pybool true) = (.error e, s)) := by
  refine ⟨?_, ?_, ?_, ?_⟩
  · intro f1 f2 d1 d2 s1 s2 hne h1 h2
    rcases simulate_cases s1 none none (some f2) none none (.pybool true) with
      ⟨e, he⟩ | ⟨d, hd⟩
    · rw [h2] at he; simp at he
    · rw [h2] at hd
      simp at hd
      obtain ⟨hd1, hd2⟩ := hd
      rw [hd2, hd1]
  · intro st? en? fr? an? fm? kd e s' h
    rcases simulate_cases s st? en? fr? an? fm? kd with ⟨e', he⟩ | ⟨d, hd⟩
    · rw [h] at he
      simp at he
      exact ⟨he.2, by rw [he.2]⟩
    · rw [h] at hd
      by_cases hk : kd = PyVal.pybool true <;> simp [hk] at hd
  · intro engFn e hE herr
    simp [Simulation.simulate, resolveArg, hE, MultilayerSimulator.simulate, herr]
  · intro engFn fmt raw e hE hF hok herr
    simp [Simulation.simulate, resolveArg, hE, hF, MultilayerSimulator.simulate,
      hok, applyFormatter, herr]

/-- Witness for C1: a concrete two-call run leaves `data` at the second
result, and a concrete engine error propagates with the instance unchanged. -/
theorem C1_simulate_witness :
    ((({ engine := some witnessEngine, frequencies := some [1] } :
          Simulation Unit (List ℚ)).simulate
        none none (some [1]) none none (.pybool true)).2.simulate
        none none (some [2]) none none (.pybool true)).2.data = some [2] ∧
    ({ engine := some witnessEngine, frequencies := some [0] } :
        Simulation Unit (List ℚ)).simulate none none none none none (.pybool true)
      = (.error (.other "boom"),
          { engine := some witnessEngine, frequencies := some [0] }) := by
  constructor
  · exact (C1_simulate_cache_overwrite_and_error_propagation
      ({ engine := some witnessEngine, frequencies := some [1] } :
        Simulation Unit (List ℚ))).1 [1] [2] [1] [2]
      { engine := some witnessEngine, frequencies := some [1], data := some [1] }
      { engine := some witnessEngine, frequencies := some [1], data := some [2] }
      (by decide) rfl rfl
  · exact (C1_simulate_cache_overwrite_and_error_propagation
      ({ engine := some witnessEngine, frequencies := some [0] } :
        Simulation Unit (List ℚ))).2.2.1 witnessEngine (.other "boom") rfl rfl

/-- C2: constructing a `Layer` with a scalar thickness `t ≥ 0`, or assigning
such a `t` to an existing layer's `thickness`, succeeds and leaves
`thickness = [t]`; for `t < 0` both fail with a validation error (the value is
never clamped). -/
theorem C2_layer_thickness_validation (idx : IndexFunction) (t : ℚ)
    (material : Option ConstantIndex) (name : Option String) (l : LayerVal) :
    (0 ≤ t →
      Layer.mk? idx t material name
        = .ok { _index := idx, thickness := [t], material := material, name := name } ∧
      Layer.set_thickness l t = .ok { l with thickness := [t] }) ∧
    (t < 0 →
      Layer.mk? idx t material name = .error .validationError ∧
      Layer.set_thickness l t = .error .validationError) := by
  constructor
  · intro h
    constructor <;> simp [Layer.mk?, Layer.set_thickness, h]
  · intro h
    constructor <;> simp [Layer.mk?, Layer.set_thickness, not_le.mpr h]

/-- Witness for C2: thickness 3 is accepted (stored as `[3]`), thickness −1 is
rejected with a validation error. -/
theorem C2_layer_thickness_witness :
    Layer.mk? (ConstantIndex.index ⟨1, none⟩) 3 none none
      = .ok { _index := ConstantIndex.index ⟨1, none⟩, thickness := [3],
              material := none, name := none } ∧
    Layer.set_thickness Layer.vacuum (-1) = .error .validationError := by
  refine ⟨?_, ?_⟩
  · exact ((C2_layer_thickness_validation _ 3 none none Layer.vacuum).1
      (by norm_num)).1
  · exact ((C2_layer_thickness_validation (ConstantIndex.index ⟨1, none⟩) (-1)
      none none Layer.vacuum).2 (by norm_num)).2

/-- C3: `from_given_unit_cell` with `copy_layers=True` produces exactly
`N*k + 2` layers whose values are
`[incident] ++ unit cell repeated N times ++ [exit]`; the first and last
layers equal the incident/exit arguments by value but are distinct objects;
and the recorded `unit_cell` is the literal sequence passed in. -/
theorem C3_from_given_unit_cell_copy_construction (store : Store)
    (U : List LayerRef) (inc ex : LayerRef) (N : Nat)
    (hU : ∀ r ∈ U, r < store.length) (hinc : inc < store.length)
    (hex : ex < store.length) :
    (Multilayer.from_given_unit_cell store U inc ex N true).2.layers.length
        = N * U.length + 2 ∧
    (Multilayer.from_given_unit_cell store U inc ex N true).2.layers.map
        (getLayer (Multilayer.from_given_unit_cell store U inc ex N true).1)
      = getLayer store inc ::
          ((List.replicate N (U.map (getLayer store))).flatten
            ++ [getLayer store ex]) ∧
    (Multilayer.from_given_unit_cell store U inc ex N true).2.layers.getD 0 0
        ≠ inc ∧
    getLayer (Multilayer.from_given_unit_cell store U inc ex N true).1
        ((Multilayer.from_given_unit_cell store U inc ex N true).2.layers.getD 0 0)
      = getLayer store inc ∧
    (Multilayer.from_given_unit_cell store U inc ex N true).2.layers.getD
        ((Multilayer.from_given_unit_cell store U inc ex N true).2.layers.length - 1) 0
      ≠ ex ∧
    getLayer (Multilayer.from_given_unit_cell store U inc ex N true).1
        ((Multilayer.from_given_unit_cell store U inc ex N true).2.layers.getD
          ((Multilayer.from_given_unit_cell store U inc ex N true).2.layers.length - 1) 0)
      = getLayer store ex ∧
    (Multilayer.from_given_unit_cell store U inc ex N true).2.unit_cell = some U := by
  have hvalid := buildSeq_valid store U inc ex N hU hinc hex
  have hrefs := from_given_copy_refs store U inc ex N
  have hstore := from_given_copy_store store U inc ex N hvalid
  have hvalues := from_given_copy_values store U inc ex N hvalid
  have hseqlen := buildSeq_length U inc ex N
  have hlen : (Multilayer.from_given_unit_cell store U inc ex N true).2.layers.length
      = N * U.length + 2 := by
    rw [hrefs, List.length_range', hseqlen]
  have hpos : 0 < (buildSeq U inc ex N).length := by rw [hseqlen]; omega
  have hd0 : (Multilayer.from_given_unit_cell store U inc ex N true).2.layers.getD 0 0
      = store.length := by
    rw [hrefs, getD_range' _ _ 0 hpos, Nat.add_zero]
  have hdlast : (Multilayer.from_given_unit_cell store U inc ex N true).2.layers.getD
      ((Multilayer.from_given_unit_cell store U inc ex N true).2.layers.length - 1) 0
      = store.length + ((buildSeq U inc ex N).length - 1) := by
    rw [hrefs, List.length_range', getD_range' _ _ _ (by omega)]
  have hvat : ∀ i, i < (buildSeq U inc ex N).length →
      getLayer (Multilayer.from_given_unit_cell store U inc ex N true).1
        (store.length + i)
      = getLayer store ((buildSeq U inc ex N).getD i 0) := by
    intro i hi
    rw [hstore, getLayer_append_right]
    show ((buildSeq U inc ex N).map (getLayer store)).getD i default
      = getLayer store ((buildSeq U inc ex N).getD i 0)
    exact getD_map_lt (getLayer store) _ i 0 default hi
  refine ⟨hlen, ?_, ?_, ?_, ?_, ?_, ?_⟩
  · rw [hvalues]
    simp [buildSeq, List.map_flatten, List.map_replicate]
  · rw [hd0]
    exact (Nat.ne_of_lt hinc).symm
  · have h := hvat 0 hpos
    rw [Nat.add_zero, buildSeq_getD_zero] at h
    rw [hd0]
    exact h
  · rw [hdlast]
    exact (Nat.ne_of_lt (Nat.lt_of_lt_of_le hex (Nat.le_add_right _ _))).symm
  · have h := hvat ((buildSeq U inc ex N).length - 1) (by omega)
    rw [hdlast, h, buildSeq_getD_last]
  · simp [Multilayer.from_given_unit_cell]

/-- Witness for C3: a three-object heap, unit cell `[layer_1]`, two periods:
the built stack has four fresh layer objects, `2*1 + 2` of them, records the
literal unit cell, and its first layer is not the incident object. -/
theorem C3_from_given_unit_cell_copy_witness :
    (Multilayer.from_given_unit_cell [Layer.vacuum, layer_1, layer_2] [1] 0 2 2
      true).2.layers = [3, 4, 5, 6] ∧
    (Multilayer.from_given_unit_cell [Layer.vacuum, layer_1, layer_2] [1] 0 2 2
      true).2.layers.length = 2 * 1 + 2 ∧
    (Multilayer.from_given_unit_cell [Layer.vacuum, layer_1, layer_2] [1] 0 2 2
      true).2.unit_cell = some [1] ∧
    (Multilayer.from_given_unit_cell [Layer.vacuum, layer_1, layer_2] [1] 0 2 2
      true).2.layers.getD 0 0 ≠ 0 := by
  have h := C3_from_given_unit_cell_copy_construction
    [Layer.vacuum, layer_1, layer_2] [1] 0 2 2 (by decide) (by decide) (by decide)
  exact ⟨rfl, by simpa using h.1, h.2.2.2.2.2.2, h.2.2.1⟩

/-- C4: in a periodic stack built with `copy_layers=False` the same `Layer`
objects are aliased across periods, so mutating `layers[1].thickness` changes
`layers[1+k].thickness` identically; with `copy_layers=True` every inserted
layer is an independent deep copy, so the same mutation leaves every other
layer of the stack, and every layer of the original heap (the
`unit_cell`/boundary arguments), unchanged. -/
theorem C4_copy_vs_alias_mutation (store : Store) (U : List LayerRef)
    (inc ex : LayerRef) (N : Nat) (hU : ∀ r ∈ U, r < store.length)
    (hinc : inc < store.length) (hex : ex < store.length) (t : ℚ) (ht : 0 ≤ t) :
    (2 ≤ N → ∀ u U', U = u :: U' →
      ((Multilayer.from_given_unit_cell store U inc ex N false).2.layers.getD 1 0
          = (Multilayer.from_given_unit_cell store U inc ex N false).2.layers.getD
              (1 + U.length) 0 ∧
        (Multilayer.from_given_unit_cell store U inc ex N false).1 = store ∧
        ∃ store₂,
          Store.set_thickness store
              ((Multilayer.from_given_unit_cell store U inc ex N false).2.layers.getD 1 0) t
            = .ok store₂ ∧
          (getLayer store₂
              ((Multilayer.from_given_unit_cell store U inc ex N false).2.layers.getD
                (1 + U.length) 0)).thickness = [t])) ∧
    (∀ p q, p < (Multilayer.from_given_unit_cell store U inc ex N true).2.layers.length →
      q < (Multilayer.from_given_unit_cell store U inc ex N true).2.layers.length →
      p ≠ q →
      ∃ store₂,
        Store.set_thickness (Multilayer.from_given_unit_cell store U inc ex N true).1
            ((Multilayer.from_given_unit_cell store U inc ex N true).2.layers.getD p 0) t
          = .ok store₂ ∧
        getLayer store₂
            ((Multilayer.from_given_unit_cell store U inc ex N true).2.layers.getD q 0)
          = getLayer (Multilayer.from_given_unit_cell store U inc ex N true).1
              ((Multilayer.from_given_unit_cell store U inc ex N true).2.layers.getD q 0) ∧
        (∀ r, r < store.length → getLayer store₂ r = getLayer store r)) := by
  constructor
  · intro hN u U' hUeq
    subst hUeq
    obtain ⟨n, rfl⟩ : ∃ n, N = n + 2 := ⟨N - 2, by omega⟩
    have hlayersF : (Multilayer.from_given_unit_cell store (u :: U') inc ex
        (n + 2) false).2.layers = buildSeq (u :: U') inc ex (n + 2) := by
      simp [Multilayer.from_given_unit_cell]
    have hstoreF : (Multilayer.from_given_unit_cell store (u :: U') inc ex
        (n + 2) false).1 = store := by
      simp [Multilayer.from_given_unit_cell]
    have hbs : buildSeq (u :: U') inc ex (n + 2)
        = inc :: ((u :: U')
            ++ (((u :: U') ++ (List.replicate n (u :: U')).flatten) ++ [ex])) := by
      simp [buildSeq, List.replicate_succ]
    have h1 : (buildSeq (u :: U') inc ex (n + 2)).getD 1 0 = u := by
      rw [hbs]
      rfl
    have h2 : (buildSeq (u :: U') inc ex (n + 2)).getD (1 + (u :: U').length) 0 = u := by
      rw [hbs, Nat.add_comm 1 (u :: U').length, List.getD_cons_succ]
      rw [List.getD_append_right _ _ _ _ (Nat.le_refl _)]
      simp
    have hu : u < store.length := hU u (List.mem_cons_self u U')
    refine ⟨by rw [hlayersF, h1, h2], hstoreF, ?_⟩
    refine ⟨store.set u { getLayer store u with thickness := [t] }, ?_, ?_⟩
    · rw [hlayersF, h1]
      exact set_thickness_ok store u t ht
    · rw [hlayersF, h2, getLayer_set_self store u _ hu]
  · intro p q hp hq hpq
    have hvalid := buildSeq_valid store U inc ex N hU hinc hex
    have hrefs := from_given_copy_refs store U inc ex N
    have hstore := from_given_copy_store store U inc ex N hvalid
    have hm : (Multilayer.from_given_unit_cell store U inc ex N true).2.layers.length
        = (buildSeq U inc ex N).length := by
      rw [hrefs, List.length_range']
    rw [hm] at hp hq
    have hdp : (Multilayer.from_given_unit_cell store U inc ex N true).2.layers.getD p 0
        = store.length + p := by rw [hrefs, getD_range' _ _ p hp]
    have hdq : (Multilayer.from_given_unit_cell store U inc ex N true).2.layers.getD q 0
        = store.length + q := by rw [hrefs, getD_range' _ _ q hq]
    refine ⟨(Multilayer.from_given_unit_cell store U inc ex N true).1.set
        (store.length + p)
        { getLayer (Multilayer.from_given_unit_cell store U inc ex N true).1
            (store.length + p) with thickness := [t] }, ?_, ?_, ?_⟩
    · rw [hdp]
      exact set_thickness_ok _ _ t ht
    · rw [hdq]
      refine getLayer_set_ne _ _ _ _ ?_
      intro hEq
      exact hpq (Nat.add_left_cancel hEq)
    · intro r hr
      have hne : store.length + p ≠ r := by omega
      rw [getLayer_set_ne _ _ _ _ hne, hstore, getLayer_append_left _ _ _ hr]

/-- Witness for C4: with two periods of unit cell `[layer_1]`, the aliased
stack is `[0, 1, 1, 2]` (positions 1 and `1+k` are the same object, and
mutating it is seen at both), while the copied stack is `[3, 4, 5, 6]` and
mutating object 4 leaves object 5 untouched. -/
theorem C4_copy_vs_alias_witness :
    (Multilayer.from_given_unit_cell [Layer.vacuum, layer_1, layer_2] [1] 0 2 2
      false).2.layers = [0, 1, 1, 2] ∧
    (Multilayer.from_given_unit_cell [Layer.vacuum, layer_1, layer_2] [1] 0 2 2
        false).2.layers.getD 1 0
      = (Multilayer.from_given_unit_cell [Layer.vacuum, layer_1, layer_2] [1] 0 2 2
        false).2.layers.getD 2 0 ∧
    (getLayer ([Layer.vacuum, layer_1, layer_2].set 1
        { getLayer [Layer.vacuum, layer_1, layer_2] 1 with thickness := [5] })
      1).thickness = [5] ∧
    (Multilayer.from_given_unit_cell [Layer.vacuum, layer_1, layer_2] [1] 0 2 2
      true).2.layers = [3, 4, 5, 6] ∧
    (getLayer ((Multilayer.from_given_unit_cell [Layer.vacuum, layer_1, layer_2]
        [1] 0 2 2 true).1.set 4
        { getLayer (Multilayer.from_given_unit_cell [Layer.vacuum, layer_1, layer_2]
            [1] 0 2 2 true).1 4 with thickness := [5] }) 5).thickness
      = (getLayer (Multilayer.from_given_unit_cell [Layer.vacuum, layer_1, layer_2]
          [1] 0 2 2 true).1 5).thickness := by
  refine ⟨rfl, ?_, rfl, rfl, ?_⟩
  · exact ((C4_copy_vs_alias_mutation [Layer.vacuum, layer_1, layer_2] [1] 0 2 2
      (by decide) (by decide) (by decide) 5 (by norm_num)).1
      (by norm_num) 1 [] rfl).1
  · obtain ⟨store₂, hok, hfr, -⟩ := (C4_copy_vs_alias_mutation
      [Layer.vacuum, layer_1, layer_2] [1] 0 2 2 (by decide) (by decide)
      (by decide) 5 (by norm_num)).2 1 2 (by decide) (by decide) (by decide)
    have hexp := set_thickness_ok
      (Multilayer.from_given_unit_cell [Layer.vacuum, layer_1, layer_2] [1] 0 2 2 true).1
      ((Multilayer.from_given_unit_cell [Layer.vacuum, layer_1, layer_2] [1] 0 2 2
        true).2.layers.getD 1 0) 5 (by norm_num)
    rw [hexp] at hok
    injection hok with hok2
    rw [← hok2] at hfr
    exact congrArg LayerVal.thickness hfr

/-- C5: reading `wavelengths` after any reassignment of `frequencies` (which
invalidates the cache) yields `c / frequencies` elementwise, as does reading
it on a freshly constructed owner; `frequencies` is the stored canonical
value and the cache is cleared by the assignment; the module speed of light
is exactly 2.99792458e8. -/
theorem C5_wavelengths_derived_and_invalidated (s : SpectrumMixinV0_2)
    (f : List ℚ) (cc : ℚ) :
    ((s.setFrequencies (some f)).readWavelengths).1
      = some (convert_wavelength_and_frequency f s.c) ∧
    ((s.setFrequencies (some f)).readWavelengths).1
      = some (f.map (fun v => s.c / v)) ∧
    (s.setFrequencies (some f)).frequencies = some f ∧
    (s.setFrequencies (some f)).wavelengthsCache = none ∧
    (({ c := cc, frequencies := some f } : SpectrumMixinV0_2).readWavelengths).1
      = some (f.map (fun v => cc / v)) ∧
    ({ frequencies := some f } : SpectrumMixinV0_2).c = 299792458 := by
  refine ⟨?_, ?_, rfl, rfl, ?_, rfl⟩ <;>
    simp [SpectrumMixinV0_2.setFrequencies, SpectrumMixinV0_2.readWavelengths,
      convert_wavelength_and_frequency]

/-- C6: `from_own_unit_cell` with no explicit unit cell uses the recorded
`unit_cell` when present and otherwise falls back to `stack_layers`
(`layers[1:-1]`); in the fallback case the derived multilayer's recorded
`unit_cell` equals the original's `stack_layers`. -/
theorem C6_from_own_unit_cell_fallback (store : Store) (self : Multilayer)
    (incident_layer exit_layer : LayerRef) (num_periods : Nat)
    (copy_layers : Bool) :
    (∀ u, self.unit_cell = some u →
      Multilayer.from_own_unit_cell store self none incident_layer exit_layer
          num_periods copy_layers
        = Multilayer.from_given_unit_cell store u incident_layer exit_layer
          num_periods copy_layers) ∧
    (self.unit_cell = none →
      Multilayer.from_own_unit_cell store self none incident_layer exit_layer
          num_periods copy_layers
        = Multilayer.from_given_unit_cell store self.stack_layers incident_layer
          exit_layer num_periods copy_layers ∧
      (Multilayer.from_own_unit_cell store self none incident_layer exit_layer
          num_periods copy_layers).2.unit_cell = some self.stack_layers) := by
  refine ⟨?_, ?_⟩
  · intro u hu
    simp [Multilayer.from_own_unit_cell, hu]
  · intro hu
    refine ⟨by simp [Multilayer.from_own_unit_cell, hu], ?_⟩
    simp [Multilayer.from_own_unit_cell, hu, Multilayer.from_given_unit_cell]
    by_cases hc : copy_layers <;> simp [hc]

/-- Witness for C6: on a three-layer stack with no recorded unit cell, the
re-derived multilayer records `stack_layers = [1]` as its unit cell. -/
theorem C6_from_own_unit_cell_witness :
    (Multilayer.from_own_unit_cell [Layer.vacuum, layer_1, layer_2]
        ⟨[0, 1, 2], none⟩ none 0 2 1 true).2.unit_cell = some [1] := by
  have h := (C6_from_own_unit_cell_fallback [Layer.vacuum, layer_1, layer_2]
    ⟨[0, 1, 2], none⟩ 0 2 1 true).2 rfl
  have hs : Multilayer.stack_layers ⟨[0, 1, 2], none⟩ = [1] := rfl
  rw [← hs]
  exact h.2

/-- C7: `Multilayer.index(frequencies, component)` has one row per layer, row
`i` being layer `i`'s index over the frequencies; when every layer's index
callable honours the `Material` contract (same shape as its input), the
result is an `n × m` matrix for `m` frequencies. -/
theorem C7_multilayer_index_shape (store : Store) (m : Multilayer)
    (frequencies : List ℚ) (component : Nat)
    (h : ∀ r ∈ m.layers,
      (Layer.index (getLayer store r) frequencies component).length
        = frequencies.length) :
    (Multilayer.index store m frequencies component).length = m.layers.length ∧
    ∀ i, i < m.layers.length →
      (Multilayer.index store m frequencies component).getD i []
          = Layer.index (getLayer store (m.layers.getD i 0)) frequencies component ∧
      ((Multilayer.index store m frequencies component).getD i []).length
          = frequencies.length := by
  refine ⟨by simp [Multilayer.index], ?_⟩
  intro i hi
  have hmem : m.layers.getD i 0 ∈ m.layers := by
    rw [List.getD_eq_getElem _ _ hi]
    exact List.getElem_mem _
  have hrow : (Multilayer.index store m frequencies component).getD i []
      = Layer.index (getLayer store (m.layers.getD i 0)) frequencies component := by
    unfold Multilayer.index
    exact getD_map_lt _ _ i 0 [] hi
  exact ⟨hrow, by rw [hrow]; exact h _ hmem⟩

/-- Witness for C7: the spec's concrete scenario — two layers built by
`Layer.from_material` with constant indices 1 and 2 give
`multilayer.index([100]) = [[1], [2]]`, a 2 × 1 matrix. -/
theorem C7_multilayer_index_witness :
    Layer.from_material ⟨1, none⟩ 1 none = .ok layer_1 ∧
    Layer.from_material ⟨2, none⟩ 2 none = .ok layer_2 ∧
    Multilayer.index [layer_1, layer_2] ⟨[0, 1], none⟩ [100] 1 = [[1], [2]] ∧
    (Multilayer.index [layer_1, layer_2] ⟨[0, 1], none⟩ [100] 1).length = 2 := by
  refine ⟨rfl, rfl, rfl, ?_⟩
  have h := (C7_multilayer_index_shape [layer_1, layer_2] ⟨[0, 1], none⟩ [100] 1 ?_).1
  · exact h
  · intro r hr
    fin_cases hr <;> rfl

/-- C8 (code bug): `Multilayer.thickness` is
`np.array([layer.thickness for layer in layers]).squeeze()`; the code's own
comment says this squeezes the n×1 array to an n-vector, and the claim states
a one-dimensional one-entry-per-layer vector, but on a single-layer stack
`squeeze` collapses the 1×1 array to a 0-dimensional scalar (shape `[]`, not
`[1]`).  Two-layer stacks and the zero-layer stack behave as claimed. -/
theorem C8_thickness_squeeze_single_layer_bug :
    Multilayer.thickness [single_layer] ⟨[0], none⟩ = ⟨[], [5]⟩ ∧
    (Multilayer.thickness [single_layer] ⟨[0], none⟩).shape ≠ [1] ∧
    Multilayer.thickness [layer_1, layer_2] ⟨[0, 1], none⟩ = ⟨[2], [1, 2]⟩ ∧
    Multilayer.thickness [] ⟨[], none⟩ = ⟨[0], []⟩ := by
  refine ⟨rfl, by decide, rfl, rfl⟩

/-- C9 counterexample: on the base `LumericalFormatter`, whose
`to_xarray_dataset` raises `NotImplementedError`, the recognised
`"xarray_dataset"` selector does not produce a structured result (it raises
`NotImplementedError`, which is not the configuration error either); the base
`DataFormatter.format` likewise raises `NotImplementedError` even for the
passthrough selector. -/
theorem C9_dataset_selector_counterexample :
    LumericalFormatter.format (some "xarray_dataset")
        (LumericalFormatter.to_xarray_dataset_base (ρ := Nat) (τ := Nat)) id 0
      = .error .notImplementedError ∧
    (LumericalFormatter.format (some "xarray_dataset")
        (LumericalFormatter.to_xarray_dataset_base (ρ := Nat) (τ := Nat)) id 0).isOk
      = false ∧
    DataFormatter.format (ρ := Nat) (τ := Nat) none 0 = .error .notImplementedError :=
  ⟨rfl, rfl, rfl⟩

/-- C9 (amended): `LumericalFormatter.format` dispatches on the selector — the
`None` selector returns the raw dataset unchanged, the `"xarray_dataset"` and
`"xarray_dataarray"` selectors invoke the formatter's (subclass-overridable)
`to_xarray_dataset` production method (on the base class this method is
unimplemented and raises `NotImplementedError`), and any unrecognised
selector raises `AttributeError("output_format not recognised")`
immediately. -/
theorem C9_format_dispatch_amended {ρ τ α : Type} (toDataset : ρ → Except PyError τ)
    (toArray : τ → α) (data : ρ) :
    LumericalFormatter.format none toDataset toArray data = .ok (.raw data) ∧
    LumericalFormatter.format (some "xarray_dataset") toDataset toArray data
      = (toDataset data).map .dataset ∧
    LumericalFormatter.format (some "xarray_dataarray") toDataset toArray data
      = (toDataset data).map (fun x => .dataarray (toArray x)) ∧
    LumericalFormatter.format (some "xarray_dataset")
        LumericalFormatter.to_xarray_dataset_base toArray data
      = .error .notImplementedError ∧
    (∀ s : String, s ≠ "xarray_dataset" → s ≠ "xarray_dataarray" →
      LumericalFormatter.format (some s) toDataset toArray data
        = .error (.attributeError "output_format not recognised")) := by
  refine ⟨rfl, rfl, rfl, rfl, ?_⟩
  intro s h1 h2
  unfold LumericalFormatter.format
  split <;> simp_all

/-- Witness for C9: the unrecognised selector `"foo"` raises the
configuration error, and the passthrough selector returns the raw value. -/
theorem C9_format_dispatch_witness :
    LumericalFormatter.format (some "foo") (fun n : Nat => Except.ok (n + 1)) id 7
      = .error (.attributeError "output_format not recognised") ∧
    LumericalFormatter.format none (fun n : Nat => Except.ok (n + 1)) id 7
      = .ok (.raw 7) := by
  have h := C9_format_dispatch_amended (fun n : Nat => Except.ok (n + 1)) id 7
  exact ⟨h.2.2.2.2 "foo" (by decide) (by decide), h.1⟩

/-- C10: `Simulation.simulate` writes `self.data` only when `keep_data` is the
boolean `True` (an identity test, so the integer 1 does not count); for any
other value the result is still computed and returned identically but the
instance is left entirely unchanged; and in all cases every field other than
`data` (structure, engine, frequencies, angles, formatter, and the inherited
`c` and wavelength cache) is unchanged. -/
theorem C10_keep_data_identity_and_frame {σ δ : Type} (s : Simulation σ δ)
    (structure? : Option σ) (engine? : Option (Engine σ δ))
    (frequencies? angles? : Option (List ℚ))
    (formatter? : Option (δ → Except PyError δ)) (keep_data : PyVal) :
    (s.simulate structure? engine? frequencies? angles? formatter? keep_data).1
      = (s.simulate structure? engine? frequencies? angles? formatter?
          (PyVal.pybool true)).1 ∧
    (keep_data ≠ PyVal.pybool true →
      (s.simulate structure? engine? frequencies? angles? formatter? keep_data).2
        = s) ∧
    ((s.simulate structure? engine? frequencies? angles? formatter? keep_data).2.struct
        = s.struct ∧
      (s.simulate structure? engine? frequencies? angles? formatter? keep_data).2.engine
        = s.engine ∧
      (s.simulate structure? engine? frequencies? angles? formatter? keep_data).2.frequencies
        = s.frequencies ∧
      (s.simulate structure? engine? frequencies? angles? formatter? keep_data).2.angles
        = s.angles ∧
      (s.simulate structure? engine? frequencies? angles? formatter? keep_data).2.formatter
        = s.formatter ∧
      (s.simulate structure? engine? frequencies? angles? formatter? keep_data).2.c
        = s.c ∧
      (s.simulate structure? engine? frequencies? angles? formatter? keep_data).2.wavelengthsCache
        = s.wavelengthsCache) := by
  refine ⟨simulate_fst_indep s structure? engine? frequencies? angles? formatter? _ _,
    ?_, ?_⟩
  · intro hk
    rcases simulate_cases s structure? engine? frequencies? angles? formatter?
        keep_data with ⟨e, he⟩ | ⟨d, hd⟩
    · rw [he]
    · rw [hd]; simp [hk]
  · rcases simulate_cases s structure? engine? frequencies? angles? formatter?
        keep_data with ⟨e, he⟩ | ⟨d, hd⟩
    · rw [he]; exact ⟨rfl, rfl, rfl, rfl, rfl, rfl, rfl⟩
    · rw [hd]
      by_cases hk : keep_data = PyVal.pybool true <;> simp [hk]

/-- Witness for C10: with `keep_data` the truthy integer 1, the result is
still computed and returned but the instance — including `data` — is left
unchanged. -/
theorem C10_keep_data_witness :
    (({ engine := some witnessEngine, frequencies := some [5] } :
          Simulation Unit (List ℚ)).simulate
        none none none none none (.pyint 1)).1 = .ok [5] ∧
    (({ engine := some witnessEngine, frequencies := some [5] } :
          Simulation Unit (List ℚ)).simulate
        none none none none none (.pyint 1)).2
      = { engine := some witnessEngine, frequencies := some [5] } := by
  refine ⟨rfl, (C10_keep_data_identity_and_frame
    ({ engine := some witnessEngine, frequencies := some [5] } :
      Simulation Unit (List ℚ)) none none none none none (.pyint 1)).2.1
    (by decide)⟩

end MultilayerSimulator
